import Mathlib

/-!
Shallow embedding of `src/server/mcp-weather-server.ts` (an MCP tool server
wrapping a paid upstream HTTP resource behind an x402 payment-aware axios
client), together with a spec-modelled payment-aware request executor for the
parts of the flow implemented by the external `@x402/axios` library.

JavaScript runtime values are modelled by the inductive `JsValue`; values whose
`JSON.stringify` throws (reference cycles) are marked by the `cyclic`
constructor, since a Lean inductive tree cannot itself be cyclic.
-/

/-- Model of a JavaScript runtime value as it flows through the server:
`undefined` is the JS undefined value, `cyclic` marks a value containing a
reference cycle (the one way `JSON.stringify` can throw here). -/
inductive JsValue where
  | undefined : JsValue
  | null : JsValue
  | bool : Bool → JsValue
  | num : Int → JsValue
  | str : String → JsValue
  | arr : List JsValue → JsValue
  | obj : List (String × JsValue) → JsValue
  | cyclic : JsValue
  deriving Repr

/-- JavaScript nullishness: the values `??` coalesces over (`null`/`undefined`). -/
def JsValue.isNullish : JsValue → Bool
  | .undefined => true
  | .null => true
  | _ => false

/-- Whether a JS value is a string (`typeof v === "string"`). -/
def JsValue.isStringVal : JsValue → Bool
  | .str _ => true
  | _ => false

/-- The JavaScript `a ?? b` operator. -/
def jsCoalesce (a b : JsValue) : JsValue :=
  if a.isNullish then b else a

/-- JavaScript falsiness, as tested by `!headers`. -/
def jsFalsy : JsValue → Bool
  | .undefined => true
  | .null => true
  | .bool false => true
  | .num 0 => true
  | .str "" => true
  | _ => false

/-- Whether `typeof v === "object"` holds in JavaScript (true for `null`,
plain objects and arrays). -/
def jsTypeofIsObject : JsValue → Bool
  | .null => true
  | .obj _ => true
  | .arr _ => true
  | .cyclic => true
  | _ => false

/-- JavaScript property read `v[key]` for a string key: defined field of an
object, `undefined` otherwise (string-keyed reads on arrays and primitives
yield `undefined` for the header names used here). -/
def jsGetProp : JsValue → String → JsValue
  | .obj fields, key => (fields.lookup key).getD .undefined
  | _, _ => .undefined

/-- JavaScript `toLowerCase` on one character, for the ASCII header names in
play. -/
def lowerChar (c : Char) : Char :=
  if 'A' ≤ c && c ≤ 'Z' then Char.ofNat (c.toNat + 32) else c

/-- JavaScript `toUpperCase` on one character, for the ASCII header names in
play. -/
def upperChar (c : Char) : Char :=
  if 'a' ≤ c && c ≤ 'z' then Char.ofNat (c.toNat - 32) else c

/-- `key.toLowerCase()` (ASCII range, which covers the header keys used). -/
def jsToLowerCase (s : String) : String :=
  String.mk (s.data.map lowerChar)

/-- `key.toUpperCase()` (ASCII range, which covers the header keys used). -/
def jsToUpperCase (s : String) : String :=
  String.mk (s.data.map upperChar)

/-- Embeds `getHeaderValue(headers, key)` (src lines 83-93): reject
non-object/falsy headers, coalesce the raw, lowercased and uppercased key
lookups, unwrap a leading array element, and keep only string values. -/
def getHeaderValue (headers : JsValue) (key : String) : Option String :=
  if jsFalsy headers || !(jsTypeofIsObject headers) then
    none
  else
    let direct := jsCoalesce (jsCoalesce (jsGetProp headers key)
      (jsGetProp headers (jsToLowerCase key))) (jsGetProp headers (jsToUpperCase key))
    match direct with
    | .arr elems =>
      match elems.head? with
      | some (.str s) => some s
      | _ => none
    | .str s => some s
    | _ => none

/-- Lower-case hexadecimal digit, for JSON control-character escapes. -/
def hexDigit (n : Nat) : Char :=
  if n < 10 then Char.ofNat (48 + n) else Char.ofNat (87 + n)

/-- JSON string escaping of one character, as `JSON.stringify` performs it. -/
def escapeChar (c : Char) : String :=
  if c = '"' then "\\\""
  else if c = '\\' then "\\\\"
  else if c = '\n' then "\\n"
  else if c = '\r' then "\\r"
  else if c = '\t' then "\\t"
  else if c = Char.ofNat 8 then "\\b"
  else if c = Char.ofNat 12 then "\\f"
  else if c.toNat < 32 then
    "\\u00" ++ String.singleton (hexDigit (c.toNat / 16)) ++
      String.singleton (hexDigit (c.toNat % 16))
  else String.singleton c

/-- JSON quoting of a string, as `JSON.stringify` performs it. -/
def quoteJsonString (s : String) : String :=
  "\"" ++ String.join (s.toList.map escapeChar) ++ "\""

mutual

/-- `JSON.stringify(v, null, 2)` at indentation `ind`: `.error ()` models a
thrown `TypeError` (reference cycle), `.ok none` models the JS call returning
`undefined` (top-level `undefined` input). -/
def serializeVal (ind : String) : JsValue → Except Unit (Option String)
  | .undefined => .ok none
  | .null => .ok (some "null")
  | .bool true => .ok (some "true")
  | .bool false => .ok (some "false")
  | .num n => .ok (some (toString n))
  | .str s => .ok (some (quoteJsonString s))
  | .cyclic => .error ()
  | .arr elems =>
    match serializeItems (ind ++ "  ") elems with
    | .error e => .error e
    | .ok [] => .ok (some "[]")
    | .ok items =>
      .ok (some ("[\n" ++
        String.intercalate ",\n" (items.map (fun it => ind ++ "  " ++ it)) ++
        "\n" ++ ind ++ "]"))
  | .obj fields =>
    match serializeFields (ind ++ "  ") fields with
    | .error e => .error e
    | .ok [] => .ok (some "\x7b\x7d")
    | .ok items =>
      .ok (some ("\x7b\n" ++
        String.intercalate ",\n" (items.map (fun it => ind ++ "  " ++ it)) ++
        "\n" ++ ind ++ "\x7d"))

/-- Array elements: an element serializing to `undefined` renders as `null`. -/
def serializeItems (ind : String) : List JsValue → Except Unit (List String)
  | [] => .ok []
  | v :: rest =>
    match serializeVal ind v with
    | .error e => .error e
    | .ok r =>
      match serializeItems ind rest with
      | .error e => .error e
      | .ok rs => .ok ((r.getD "null") :: rs)

/-- Object fields: a value serializing to `undefined` is omitted. -/
def serializeFields (ind : String) : List (String × JsValue) → Except Unit (List String)
  | [] => .ok []
  | (k, v) :: rest =>
    match serializeVal ind v with
    | .error e => .error e
    | .ok r =>
      match serializeFields ind rest with
      | .error e => .error e
      | .ok rs =>
        match r with
        | none => .ok rs
        | some sv => .ok ((quoteJsonString k ++ ": " ++ sv) :: rs)

end

/-- The fallback object of `safeJsonStringify`'s catch branch (src line 100). -/
def fallbackValue : JsValue :=
  .obj [("error", .str "Failed to serialize response")]

/-- The catch branch `JSON.stringify({ error: ... }, null, 2)` of
`safeJsonStringify`. -/
def fallbackSerialized : Option String :=
  match serializeVal "" fallbackValue with
  | .ok r => r
  | .error _ => none

/-- Embeds `safeJsonStringify(value)` (src lines 96-102): try
`JSON.stringify(value, null, 2)` and substitute the fixed fallback object's
serialization if it throws. -/
def safeJsonStringify (v : JsValue) : Option String :=
  match serializeVal "" v with
  | .ok r => r
  | .error _ => fallbackSerialized

/-- The `upstream` section of `RawToolResult` (src lines 71-76): `none` in
`status` and the header fields models JSON `null`. -/
structure UpstreamSection where
  status : Option Nat
  payment_response_header : Option String
  x_payment_response_header : Option String
  data : JsValue

/-- The `source` section of `RawToolResult` (src lines 66-69). -/
structure SourceSection where
  url : String
  path : String

/-- The `RawToolResult` envelope type (src lines 64-77); `request` keeps the
tool-specific fields as a JS object body. -/
structure RawToolResult where
  ok : Bool
  source : SourceSection
  request : List (String × JsValue)
  upstream : UpstreamSection

/-- The JS object a `RawToolResult` literal denotes, as handed to
`JSON.stringify` by `toRawOutput`. -/
def UpstreamSection.toJs (u : UpstreamSection) : JsValue :=
  .obj [("status", match u.status with | some n => .num n | none => .null),
        ("payment_response_header",
          match u.payment_response_header with | some s => .str s | none => .null),
        ("x_payment_response_header",
          match u.x_payment_response_header with | some s => .str s | none => .null),
        ("data", u.data)]

/-- The JS object a `RawToolResult` denotes. -/
def RawToolResult.toJs (r : RawToolResult) : JsValue :=
  .obj [("ok", .bool r.ok),
        ("source", .obj [("url", .str r.source.url), ("path", .str r.source.path)]),
        ("request", .obj r.request),
        ("upstream", r.upstream.toJs)]

/-- Embeds `toRawOutput(result)` (src lines 108-110). -/
def toRawOutput (r : RawToolResult) : Option String :=
  safeJsonStringify r.toJs

/-- An axios response object as the handlers see it: `status` is optional
because the handlers guard it with `?? 200`. -/
structure HttpResponse where
  status : Option Nat
  headers : JsValue
  data : JsValue

/-- Terminal failure of a paid request, as caught by the handlers' `catch`:
`httpError` is an axios error that carries a response (e.g. a surfaced 402),
`transport` an axios error with no response (timeout/connection refusal), and
`other` a non-axios throw; each carries the error's message text. -/
inductive ExecError where
  | httpError : HttpResponse → String → ExecError
  | transport : String → ExecError
  | other : String → ExecError

/-- The `{ message: ... }` object the catch branches build. -/
def msgObj (m : String) : JsValue :=
  .obj [("message", .str m)]

/-- `axios.isAxiosError(error) ? (error.response?.status ?? null) : null`
(src line 180). -/
def errorStatus : ExecError → Option Nat
  | .httpError r _ => r.status
  | .transport _ => none
  | .other _ => none

/-- `axios.isAxiosError(error) ? getHeaderValue(error.response?.headers, key)
?? null : null` (src lines 181-186). -/
def errorHeader (e : ExecError) (key : String) : Option String :=
  match e with
  | .httpError r _ => getHeaderValue r.headers key
  | .transport _ => getHeaderValue .undefined key
  | .other _ => none

/-- `axios.isAxiosError(error) ? error.response?.data ?? { message:
error.message } : { message: String(error) }` (src line 187). -/
def errorData : ExecError → JsValue
  | .httpError r m => jsCoalesce r.data (msgObj m)
  | .transport m => msgObj m
  | .other m => msgObj m

/-- The `get-weather` handler's envelope construction (src lines 134-198),
as a function of the awaited `api.get` outcome. -/
def getWeatherEnvelope (bu ep city : String) (date : Option String)
    (outcome : Except ExecError HttpResponse) : RawToolResult :=
  match outcome with
  | .ok response =>
    { ok := true
      source := { url := bu, path := ep }
      request := [("tool", .str "get-weather"), ("city", .str city),
                  ("date", match date with | some d => .str d | none => .null)]
      upstream :=
        { status := some (response.status.getD 200)
          payment_response_header := getHeaderValue response.headers "payment-response"
          x_payment_response_header := getHeaderValue response.headers "x-payment-response"
          data := response.data } }
  | .error e =>
    { ok := false
      source := { url := bu, path := ep }
      request := [("tool", .str "get-weather"), ("city", .str city),
                  ("date", match date with | some d => .str d | none => .null)]
      upstream :=
        { status := errorStatus e
          payment_response_header := errorHeader e "payment-response"
          x_payment_response_header := errorHeader e "x-payment-response"
          data := errorData e } }

/-- The `get-data-from-resource-server` handler's envelope construction
(src lines 206-265). -/
def getDataEnvelope (bu ep : String)
    (outcome : Except ExecError HttpResponse) : RawToolResult :=
  match outcome with
  | .ok response =>
    { ok := true
      source := { url := bu, path := ep }
      request := [("tool", .str "get-data-from-resource-server")]
      upstream :=
        { status := some (response.status.getD 200)
          payment_response_header := getHeaderValue response.headers "payment-response"
          x_payment_response_header := getHeaderValue response.headers "x-payment-response"
          data := response.data } }
  | .error e =>
    { ok := false
      source := { url := bu, path := ep }
      request := [("tool", .str "get-data-from-resource-server")]
      upstream :=
        { status := errorStatus e
          payment_response_header := errorHeader e "payment-response"
          x_payment_response_header := errorHeader e "x-payment-response"
          data := errorData e } }

/-- The serialized text the `get-weather` handler returns to the host
transport (the one `content` entry's `text`). -/
def getWeatherTool (bu ep city : String) (date : Option String)
    (outcome : Except ExecError HttpResponse) : Option String :=
  toRawOutput (getWeatherEnvelope bu ep city date outcome)

/-- The serialized text the `get-data-from-resource-server` handler returns. -/
def getDataTool (bu ep : String)
    (outcome : Except ExecError HttpResponse) : Option String :=
  toRawOutput (getDataEnvelope bu ep outcome)

/-- Modelled from the spec: a payment challenge carried by a 402 response body
(spec section 3) — the scheme family it names plus opaque challenge material;
the challenge schema itself is owned by the payment-scheme libraries and is
absent from src/. -/
structure PaymentChallenge where
  scheme : String
  material : JsValue

/-- Modelled from the spec: a signed payment proof, attached to the replayed
request as a header value (spec section 3); proof construction is implemented
by the x402 scheme libraries, absent from src/. -/
structure PaymentProof where
  payload : String

/-- Modelled from the spec: one registered signer capability of the scheme
registry (spec sections 3, 4.1-4.3) — a settlement-network family tag and its
proof-production operation, which may fail (a signing failure is terminal). -/
structure SchemeCapability where
  family : String
  sign : PaymentChallenge → Except String PaymentProof

/-- One upstream attempt's outcome: a response object, or a transport-level
failure (timeout / connection error) with its message. -/
inductive UpstreamOutcome where
  | response : HttpResponse → UpstreamOutcome
  | netError : String → UpstreamOutcome

/-- Modelled from the spec: the payment-aware request executor of
`wrapAxiosWithPayment` (spec section 4.4), whose implementation lives in the
external `@x402/axios` package, absent from src/. `upstream n p` is the
outcome of attempt `n` carrying the optional payment proof `p`;
`extractChallenge` is the library-owned challenge parser. Returns the terminal
outcome as the handlers observe it, paired with the number of upstream calls
issued. A response is classified payment-required exactly on status 402; a
supported challenge triggers one replay with the proof attached; the replay's
outcome is terminal whatever it is. -/
def executeWithPayment (registry : List SchemeCapability)
    (extractChallenge : JsValue → Option PaymentChallenge)
    (upstream : Nat → Option PaymentProof → UpstreamOutcome) :
    Except ExecError HttpResponse × Nat :=
  match upstream 0 none with
  | .netError m => (.error (.transport m), 1)
  | .response r =>
    if r.status ≠ some 402 then
      (.ok r, 1)
    else
      match extractChallenge r.data with
      | none => (.error (.other "malformed payment challenge"), 1)
      | some ch =>
        match registry.find? (fun c => c.family == ch.scheme) with
        | none => (.error (.httpError r "Request failed with status code 402"), 1)
        | some cap =>
          match cap.sign ch with
          | .error m => (.error (.other ("payment negotiation failed: " ++ m)), 1)
          | .ok proof =>
            match upstream 1 (some proof) with
            | .netError m => (.error (.transport m), 2)
            | .response r2 =>
              if r2.status = some 402 then
                (.error (.httpError r2 "Request failed with status code 402"), 2)
              else
                (.ok r2, 2)

/-- A full `get-weather` invocation: the executor's terminal outcome fed into
the handler's envelope construction, paired with the upstream call count. -/
def invokeGetWeather (registry : List SchemeCapability)
    (extractChallenge : JsValue → Option PaymentChallenge)
    (upstream : Nat → Option PaymentProof → UpstreamOutcome)
    (bu ep city : String) (date : Option String) : RawToolResult × Nat :=
  let out := executeWithPayment registry extractChallenge upstream
  (getWeatherEnvelope bu ep city date out.1, out.2)

/-- The environment variables the server reads (src lines 19-23); `none`
models an unset variable. -/
structure Env where
  evmKey : Option String
  svmKey : Option String
  resourceServerUrl : Option String
  endpointPathVar : Option String
  requestTimeoutMsVar : Option String

/-- JavaScript falsiness of a `string | undefined` binding, as `!evmPrivateKey`
tests it (unset or empty). -/
def envFalsy : Option String → Bool
  | none => true
  | some s => s == ""

/-- `process.env.RESOURCE_SERVER_URL ?? "http://localhost:4021"` (src line 21). -/
def baseURL (env : Env) : String :=
  env.resourceServerUrl.getD "http://localhost:4021"

/-- `process.env.ENDPOINT_PATH ?? "/weather"` (src line 22). -/
def endpointPath (env : Env) : String :=
  env.endpointPathVar.getD "/weather"

/-- Whitespace as JavaScript `Number`'s string conversion strips it. -/
def isJsSpace (c : Char) : Bool :=
  c = ' ' || c = '\t' || c = '\n' || c = '\r'

/-- A digit run's numeric value, `none` when empty or a non-digit appears. -/
def digitsValue (l : List Char) : Option Int :=
  if l.isEmpty then none
  else l.foldl (fun acc c =>
    acc.bind (fun n => if c.isDigit then some (n * 10 + (c.toNat - 48)) else none))
    (some (0 : Int))

/-- JavaScript `Number(s)` on a string, modelled for trimmed optionally-signed
decimal integers (the empty string is 0, anything unparsed is NaN = `none`);
the timeout values in play are plain decimals. -/
def jsStringToNumber (s : String) : Option Int :=
  let t := (s.data.dropWhile isJsSpace).reverse.dropWhile isJsSpace |>.reverse
  match t with
  | [] => some 0
  | '-' :: rest => (digitsValue rest).map (fun n => -n)
  | '+' :: rest => digitsValue rest
  | l => digitsValue l

/-- `Number(process.env.REQUEST_TIMEOUT_MS ?? 15000)` (src line 23); `none`
models NaN. -/
def requestTimeoutMs (env : Env) : Option Int :=
  match env.requestTimeoutMsVar with
  | none => some 15000
  | some s => jsStringToNumber s

/-- The startup guard (src lines 26-28): throw unless at least one of the two
private keys is truthy. -/
def startupSecretsCheck (env : Env) : Except String Unit :=
  if envFalsy env.evmKey && envFalsy env.svmKey then
    .error "At least one of EVM_PRIVATE_KEY or SVM_PRIVATE_KEY must be provided"
  else
    .ok ()

/-- The scheme families `createPaidHttpClient` registers (src lines 42-53):
the EVM scheme when an EVM key is truthy, the SVM scheme when an SVM key is. -/
def registeredSchemes (env : Env) : List String :=
  (if envFalsy env.evmKey then [] else ["evm"]) ++
    (if envFalsy env.svmKey then [] else ["svm"])

/-- A started server: the registered scheme families and tool names. -/
structure ServerState where
  schemes : List String
  tools : List String

/-- The startup pipeline (src lines 26-28 and `main`, lines 119-271): the
secrets guard runs at module scope before `main` is entered, so a failure
prevents client construction and tool registration; on success both tools are
registered and the server serves. The ok branch abstracts from credential
well-formedness: a present-but-malformed secret would also abort startup
(`privateKeyToAccount` / `base58.decode` throw, reaching `main().catch`), but
key validation lives inside the external viem/@scure libraries and is not
modelled, so the ok branch here asserts only what holds of every server that
did start, never that a given truthy secret starts one. -/
def startServer (env : Env) : Except String ServerState :=
  match startupSecretsCheck env with
  | .error m => .error m
  | .ok _ =>
    .ok { schemes := registeredSchemes env
          tools := ["get-weather", "get-data-from-resource-server"] }

/-- The process exit observed at startup (src lines 275-278: a startup throw
reaches `main().catch`, which calls `process.exit(1)`): `some c` is an exit
with code `c` before serving, `none` means the server is serving. -/
def processExitCode (env : Env) : Option Nat :=
  match startServer env with
  | .error _ => some 1
  | .ok _ => none

/-- Helper: serializing a JS object never produces the JS value `undefined`
(only a string, or a thrown cycle error). -/
theorem serializeVal_obj_ne_ok_none (ind : String) (fields : List (String × JsValue)) :
    serializeVal ind (.obj fields) ≠ .ok none := by
  unfold serializeVal
  cases h : serializeFields (ind ++ "  ") fields with
  | error e => simp [h]
  | ok items => cases items <;> simp [h]

/-- Helper: `safeJsonStringify` on any JS object yields a string. -/
theorem safeJsonStringify_obj_some (fields : List (String × JsValue)) :
    ∃ s, safeJsonStringify (.obj fields) = some s := by
  unfold safeJsonStringify
  cases h : serializeVal "" (.obj fields) with
  | error e =>
    exact ⟨"\x7b\n  \"error\": \"Failed to serialize response\"\n\x7d", rfl⟩
  | ok r =>
    match r, h with
    | none, h => exact absurd h (serializeVal_obj_ne_ok_none _ _)
    | some s, h => exact ⟨s, rfl⟩

/-- Claim C2: for every invocation of either tool, whatever the upstream
outcome (success, surfaced HTTP error, transport failure, or any other
throw), the handler produces exactly one result envelope and returns its
serialization, which is a defined text string; being a total function of the
outcome, no exception crosses the tool boundary. -/
theorem C2_one_envelope_always_serialized :
    ∀ (bu ep city : String) (date : Option String) (o : Except ExecError HttpResponse),
      (getWeatherTool bu ep city date o =
        toRawOutput (getWeatherEnvelope bu ep city date o) ∧
       ∃ s, getWeatherTool bu ep city date o = some s) ∧
      (getDataTool bu ep o = toRawOutput (getDataEnvelope bu ep o) ∧
       ∃ s, getDataTool bu ep o = some s) := by
  intro bu ep city date o
  refine ⟨⟨rfl, ?_⟩, ⟨rfl, ?_⟩⟩
  · exact safeJsonStringify_obj_some _
  · exact safeJsonStringify_obj_some _

/-- Claim C4: on a successful upstream resolution, both tools' envelopes have
`ok = true`, the HTTP status (defaulting to 200 if absent), the raw response
body unmodified, and both payment-receipt header variants recorded exactly as
`getHeaderValue` extracts them (`none` = JSON null when absent). -/
theorem C4_success_envelope_fields :
    ∀ (bu ep city : String) (date : Option String) (r : HttpResponse),
      ((getWeatherEnvelope bu ep city date (.ok r)).ok = true ∧
       (getWeatherEnvelope bu ep city date (.ok r)).upstream.status =
         some (r.status.getD 200) ∧
       (getWeatherEnvelope bu ep city date (.ok r)).upstream.data = r.data ∧
       (getWeatherEnvelope bu ep city date (.ok r)).upstream.payment_response_header =
         getHeaderValue r.headers "payment-response" ∧
       (getWeatherEnvelope bu ep city date (.ok r)).upstream.x_payment_response_header =
         getHeaderValue r.headers "x-payment-response") ∧
      ((getDataEnvelope bu ep (.ok r)).ok = true ∧
       (getDataEnvelope bu ep (.ok r)).upstream.status = some (r.status.getD 200) ∧
       (getDataEnvelope bu ep (.ok r)).upstream.data = r.data ∧
       (getDataEnvelope bu ep (.ok r)).upstream.payment_response_header =
         getHeaderValue r.headers "payment-response" ∧
       (getDataEnvelope bu ep (.ok r)).upstream.x_payment_response_header =
         getHeaderValue r.headers "x-payment-response") := by
  intro bu ep city date r
  exact ⟨⟨rfl, rfl, rfl, rfl, rfl⟩, ⟨rfl, rfl, rfl, rfl, rfl⟩⟩

/-- Claim C6 counterexample: with the key the code queries
(`payment-response`), a headers object storing the receipt under the
mixed-case name `Payment-Response` yields `undefined`, while the lowercase
storage yields the value — so the three storage variants do not all yield the
same extracted value. -/
theorem C6_counterexample :
    getHeaderValue (.obj [("Payment-Response", .str "receipt")]) "payment-response" = none ∧
    getHeaderValue (.obj [("payment-response", .str "receipt")]) "payment-response" =
      some "receipt" ∧
    getHeaderValue (.obj [("Payment-Response", .str "receipt")]) "payment-response" ≠
      getHeaderValue (.obj [("payment-response", .str "receipt")]) "payment-response" := by
  decide

/-- Claim C6 (amended): for the keys the code queries (`payment-response`,
`x-payment-response`), extraction is case-insensitive between the
all-lowercase and all-uppercase stored header names — both yield the same
extracted value — but a header stored under the mixed-case variant
(`Payment-Response`) is not found and yields `undefined`. -/
theorem C6_amended_lower_upper_insensitive :
    ∀ v : String,
      (getHeaderValue (.obj [("payment-response", .str v)]) "payment-response" = some v ∧
       getHeaderValue (.obj [("PAYMENT-RESPONSE", .str v)]) "payment-response" = some v) ∧
      (getHeaderValue (.obj [("x-payment-response", .str v)]) "x-payment-response" = some v ∧
       getHeaderValue (.obj [("X-PAYMENT-RESPONSE", .str v)]) "x-payment-response" = some v) ∧
      getHeaderValue (.obj [("Payment-Response", .str v)]) "payment-response" = none := by
  intro v
  exact ⟨⟨rfl, rfl⟩, ⟨rfl, rfl⟩, rfl⟩

/-- Claim C8: envelope serialization never throws — `safeJsonStringify`
yields a string on every envelope's JS object, and whenever the underlying
`JSON.stringify` throws (a reference cycle), the result is the fixed fallback
object's serialization. -/
theorem C8_serialization_never_throws :
    (∀ r : RawToolResult, ∃ s, safeJsonStringify r.toJs = some s) ∧
    (∀ v : JsValue, serializeVal "" v = .error () →
      safeJsonStringify v =
        some "\x7b\n  \"error\": \"Failed to serialize response\"\n\x7d") := by
  constructor
  · intro r
    exact safeJsonStringify_obj_some _
  · intro v h
    unfold safeJsonStringify
    rw [h]
    rfl

/-- Witness for C8 at the cyclic value: the fallback text is returned. -/
theorem C8_serialization_never_throws_witness :
    safeJsonStringify .cyclic =
      some "\x7b\n  \"error\": \"Failed to serialize response\"\n\x7d" :=
  C8_serialization_never_throws.2 .cyclic rfl

/-- Claim C9: `getHeaderValue` is total over arbitrary inputs — absent or
non-object headers give `undefined`; an array value gives its first element
only when that element is a string; non-string scalar values give `undefined`
rather than a coerced string. -/
theorem C9_getHeaderValue_total :
    (∀ key, getHeaderValue .undefined key = none) ∧
    (∀ key, getHeaderValue .null key = none) ∧
    (∀ key s, getHeaderValue (.str s) key = none) ∧
    (∀ key n, getHeaderValue (.num n) key = none) ∧
    (∀ key b, getHeaderValue (.bool b) key = none) ∧
    (∀ key s rest, getHeaderValue (.obj [(key, .arr (.str s :: rest))]) key = some s) ∧
    (∀ key v rest, v.isStringVal = false →
      getHeaderValue (.obj [(key, .arr (v :: rest))]) key = none) ∧
    (∀ key, getHeaderValue (.obj [(key, .arr [])]) key = none) ∧
    (∀ key n, getHeaderValue (.obj [(key, .num n)]) key = none) ∧
    (∀ key b, getHeaderValue (.obj [(key, .bool b)]) key = none) ∧
    getHeaderValue (.obj [("payment-response", .null)]) "payment-response" = none := by
  refine ⟨fun key => rfl, fun key => rfl, ?_, ?_, ?_, ?_, ?_, ?_, ?_, ?_, by decide⟩
  · intro key s
    simp [getHeaderValue, jsTypeofIsObject]
  · intro key n
    simp [getHeaderValue, jsTypeofIsObject]
  · intro key b
    simp [getHeaderValue, jsTypeofIsObject]
  · intro key s rest
    simp [getHeaderValue, jsTypeofIsObject, jsFalsy, jsGetProp, jsCoalesce,
      JsValue.isNullish, List.lookup]
  · intro key v rest hv
    cases v <;>
      simp_all [getHeaderValue, jsTypeofIsObject, jsFalsy, jsGetProp, jsCoalesce,
        JsValue.isNullish, List.lookup, JsValue.isStringVal]
  · intro key
    simp [getHeaderValue, jsTypeofIsObject, jsFalsy, jsGetProp, jsCoalesce,
      JsValue.isNullish, List.lookup]
  · intro key n
    simp [getHeaderValue, jsTypeofIsObject, jsFalsy, jsGetProp, jsCoalesce,
      JsValue.isNullish, List.lookup]
  · intro key b
    simp [getHeaderValue, jsTypeofIsObject, jsFalsy, jsGetProp, jsCoalesce,
      JsValue.isNullish, List.lookup]

/-- Witness for C9 at a concrete non-string array head: a numeric first
element yields `undefined`. -/
theorem C9_getHeaderValue_total_witness :
    getHeaderValue (.obj [("payment-response", .arr [.num 7])]) "payment-response" = none :=
  C9_getHeaderValue_total.2.2.2.2.2.2.1 "payment-response" (.num 7) [] rfl

/-- Claim C5: on a failed upstream call, both tools' envelopes have
`ok = false`; the status is the received response's status when a response
exists and null otherwise; the data is the response body when one is present
(non-nullish) and otherwise an object carrying the error's message text; in
particular a transport failure such as a connection timeout on the original
request yields status null and the timeout's message text as data. -/
theorem C5_failure_envelope_fields :
    ∀ (bu ep city : String) (date : Option String),
      (∀ resp m,
        (getWeatherEnvelope bu ep city date (.error (.httpError resp m))).ok = false ∧
        (getWeatherEnvelope bu ep city date (.error (.httpError resp m))).upstream.status =
          resp.status ∧
        (resp.data.isNullish = false →
          (getWeatherEnvelope bu ep city date (.error (.httpError resp m))).upstream.data =
            resp.data) ∧
        (resp.data.isNullish = true →
          (getWeatherEnvelope bu ep city date (.error (.httpError resp m))).upstream.data =
            msgObj m) ∧
        (getDataEnvelope bu ep (.error (.httpError resp m))).ok = false ∧
        (getDataEnvelope bu ep (.error (.httpError resp m))).upstream =
          (getWeatherEnvelope bu ep city date (.error (.httpError resp m))).upstream) ∧
      (∀ m,
        (getWeatherEnvelope bu ep city date (.error (.transport m))).ok = false ∧
        (getWeatherEnvelope bu ep city date (.error (.transport m))).upstream.status = none ∧
        (getWeatherEnvelope bu ep city date (.error (.transport m))).upstream.data =
          msgObj m ∧
        (getDataEnvelope bu ep (.error (.transport m))).ok = false ∧
        (getDataEnvelope bu ep (.error (.transport m))).upstream =
          (getWeatherEnvelope bu ep city date (.error (.transport m))).upstream) ∧
      (∀ m,
        (getWeatherEnvelope bu ep city date (.error (.other m))).ok = false ∧
        (getWeatherEnvelope bu ep city date (.error (.other m))).upstream.status = none ∧
        (getWeatherEnvelope bu ep city date (.error (.other m))).upstream.data = msgObj m ∧
        (getDataEnvelope bu ep (.error (.other m))).ok = false ∧
        (getDataEnvelope bu ep (.error (.other m))).upstream =
          (getWeatherEnvelope bu ep city date (.error (.other m))).upstream) := by
  intro bu ep city date
  refine ⟨?_, ?_, ?_⟩
  · intro resp m
    refine ⟨rfl, rfl, ?_, ?_, rfl, rfl⟩
    · intro h
      show jsCoalesce resp.data (msgObj m) = resp.data
      simp [jsCoalesce, h]
    · intro h
      show jsCoalesce resp.data (msgObj m) = msgObj m
      simp [jsCoalesce, h]
  · intro m
    exact ⟨rfl, rfl, rfl, rfl, rfl⟩
  · intro m
    exact ⟨rfl, rfl, rfl, rfl, rfl⟩

/-- Witness for C5: a 500 response with a body keeps that body as data, and a
connection timeout yields status null with the timeout message as data. -/
theorem C5_failure_envelope_fields_witness :
    (getWeatherEnvelope "http://localhost:4021" "/weather" "Beijing" none
      (.error (.httpError ⟨some 500, .null, .obj [("reason", .str "boom")]⟩
        "Request failed with status code 500"))).upstream.data =
      .obj [("reason", .str "boom")] ∧
    (getWeatherEnvelope "http://localhost:4021" "/weather" "Beijing" none
      (.error (.transport "timeout of 15000ms exceeded"))).upstream.status = none ∧
    (getWeatherEnvelope "http://localhost:4021" "/weather" "Beijing" none
      (.error (.transport "timeout of 15000ms exceeded"))).upstream.data =
      msgObj "timeout of 15000ms exceeded" :=
  ⟨((C5_failure_envelope_fields "http://localhost:4021" "/weather" "Beijing" none).1
      ⟨some 500, .null, .obj [("reason", .str "boom")]⟩
      "Request failed with status code 500").2.2.1 rfl,
   ((C5_failure_envelope_fields "http://localhost:4021" "/weather" "Beijing" none).2.1
      "timeout of 15000ms exceeded").2.1,
   ((C5_failure_envelope_fields "http://localhost:4021" "/weather" "Beijing" none).2.1
      "timeout of 15000ms exceeded").2.2.1⟩

/-- Claim C10: with RESOURCE_SERVER_URL, ENDPOINT_PATH and REQUEST_TIMEOUT_MS
all unset, configuration silently defaults to base URL
`http://localhost:4021`, endpoint path `/weather` and timeout 15000 ms —
total evaluation, no error; and the startup fail-fast guard is a function of
the two secrets alone, so unset configuration variables never trigger the
fail-fast that a missing secret does. -/
theorem C10_config_defaults :
    (∀ env : Env, env.resourceServerUrl = none → env.endpointPathVar = none →
      env.requestTimeoutMsVar = none →
      baseURL env = "http://localhost:4021" ∧
      endpointPath env = "/weather" ∧
      requestTimeoutMs env = some 15000) ∧
    (∀ env env2 : Env, env.evmKey = env2.evmKey → env.svmKey = env2.svmKey →
      startupSecretsCheck env = startupSecretsCheck env2) := by
  constructor
  · intro env h1 h2 h3
    refine ⟨?_, ?_, ?_⟩
    · simp [baseURL, h1]
    · simp [endpointPath, h2]
    · simp [requestTimeoutMs, h3]
  · intro env env2 h1 h2
    unfold startupSecretsCheck
    rw [h1, h2]

/-- Witness for C10: all three configuration variables unset yield the three
defaults, and setting them (with the secrets unchanged) leaves the fail-fast
guard's outcome untouched. -/
theorem C10_config_defaults_witness :
    (baseURL ⟨none, none, none, none, none⟩ = "http://localhost:4021" ∧
     endpointPath ⟨none, none, none, none, none⟩ = "/weather" ∧
     requestTimeoutMs ⟨none, none, none, none, none⟩ = some 15000) ∧
    startupSecretsCheck ⟨none, none, none, none, none⟩ =
      startupSecretsCheck ⟨none, none, some "http://example.com", some "/data", some "2500"⟩ :=
  ⟨C10_config_defaults.1 ⟨none, none, none, none, none⟩ rfl rfl rfl,
   C10_config_defaults.2 ⟨none, none, none, none, none⟩
     ⟨none, none, some "http://example.com", some "/data", some "2500"⟩ rfl rfl⟩

/-- Claim C3: with neither secret present, startup fails with the credential
error and the process exits with code 1 before any server state (tools) comes
to exist; conversely, whenever the server is serving requests, at least one
signing scheme is registered. -/
theorem C3_fail_fast_without_secrets :
    (∀ env : Env, env.evmKey = none → env.svmKey = none →
      processExitCode env = some 1 ∧
      startServer env =
        .error "At least one of EVM_PRIVATE_KEY or SVM_PRIVATE_KEY must be provided") ∧
    (∀ env s, startServer env = .ok s → s.schemes ≠ []) := by
  constructor
  · intro env h1 h2
    constructor
    · unfold processExitCode startServer startupSecretsCheck
      simp [h1, h2, envFalsy]
    · unfold startServer startupSecretsCheck
      simp [h1, h2, envFalsy]
  · intro env s h
    unfold startServer startupSecretsCheck at h
    cases hb : (envFalsy env.evmKey && envFalsy env.svmKey) with
    | true => simp [hb] at h
    | false =>
      simp [hb] at h
      cases he : envFalsy env.evmKey with
      | false =>
        rw [← h]
        simp [registeredSchemes, he]
      | true =>
        have hs : envFalsy env.svmKey = false := by
          cases hsv : envFalsy env.svmKey with
          | false => rfl
          | true => rw [he, hsv] at hb; exact absurd hb (by simp)
        rw [← h]
        simp [registeredSchemes, he, hs]

/-- Witness for C3: both secrets unset exits with code 1; with an EVM secret
the started server has a non-empty scheme list. -/
theorem C3_fail_fast_without_secrets_witness :
    processExitCode ⟨none, none, none, none, none⟩ = some 1 ∧
    (ServerState.mk ["evm"] ["get-weather", "get-data-from-resource-server"]).schemes ≠ [] :=
  ⟨(C3_fail_fast_without_secrets.1 ⟨none, none, none, none, none⟩ rfl rfl).1,
   C3_fail_fast_without_secrets.2 ⟨some "0xabc", none, none, none, none⟩
     (ServerState.mk ["evm"] ["get-weather", "get-data-from-resource-server"]) rfl⟩

/-- Claim C7: when the 402 challenge names a scheme family with no registered
capability, the executor issues no retry (exactly one upstream call) and the
invocation returns a failed envelope with `ok = false`, status 402, and the
original challenge response body as data (executor modelled from the spec,
its implementation living in the external payment library). -/
theorem C7_unsupported_scheme_no_retry :
    ∀ (registry : List SchemeCapability)
      (extract : JsValue → Option PaymentChallenge)
      (upstream : Nat → Option PaymentProof → UpstreamOutcome)
      (bu ep city : String) (date : Option String)
      (r : HttpResponse) (ch : PaymentChallenge),
      upstream 0 none = .response r →
      r.status = some 402 →
      extract r.data = some ch →
      registry.find? (fun c => c.family == ch.scheme) = none →
      r.data.isNullish = false →
      (invokeGetWeather registry extract upstream bu ep city date).2 = 1 ∧
      (invokeGetWeather registry extract upstream bu ep city date).1.ok = false ∧
      (invokeGetWeather registry extract upstream bu ep city date).1.upstream.status =
        some 402 ∧
      (invokeGetWeather registry extract upstream bu ep city date).1.upstream.data =
        r.data := by
  intro registry extract upstream bu ep city date r ch h0 h402 hex hfind hdata
  have hexec : executeWithPayment registry extract upstream =
      (.error (.httpError r "Request failed with status code 402"), 1) := by
    unfold executeWithPayment
    rw [h0]
    simp [h402, hex, hfind]
  unfold invokeGetWeather
  rw [hexec]
  refine ⟨rfl, rfl, ?_, ?_⟩
  · show r.status = some 402
    exact h402
  · show jsCoalesce r.data (msgObj "Request failed with status code 402") = r.data
    simp [jsCoalesce, hdata]

/-- Witness for C7: an unregistered SVM challenge against an empty registry
surfaces the original 402 and its body after one call. -/
theorem C7_unsupported_scheme_no_retry_witness :
    (invokeGetWeather [] (fun _ => some ⟨"svm", .null⟩)
      (fun _ _ => .response ⟨some 402, .null, .obj [("scheme", .str "svm")]⟩)
      "http://localhost:4021" "/weather" "Beijing" none).2 = 1 ∧
    (invokeGetWeather [] (fun _ => some ⟨"svm", .null⟩)
      (fun _ _ => .response ⟨some 402, .null, .obj [("scheme", .str "svm")]⟩)
      "http://localhost:4021" "/weather" "Beijing" none).1.ok = false ∧
    (invokeGetWeather [] (fun _ => some ⟨"svm", .null⟩)
      (fun _ _ => .response ⟨some 402, .null, .obj [("scheme", .str "svm")]⟩)
      "http://localhost:4021" "/weather" "Beijing" none).1.upstream.status = some 402 ∧
    (invokeGetWeather [] (fun _ => some ⟨"svm", .null⟩)
      (fun _ _ => .response ⟨some 402, .null, .obj [("scheme", .str "svm")]⟩)
      "http://localhost:4021" "/weather" "Beijing" none).1.upstream.data =
      .obj [("scheme", .str "svm")] :=
  C7_unsupported_scheme_no_retry [] (fun _ => some ⟨"svm", .null⟩)
    (fun _ _ => .response ⟨some 402, .null, .obj [("scheme", .str "svm")]⟩)
    "http://localhost:4021" "/weather" "Beijing" none
    ⟨some 402, .null, .obj [("scheme", .str "svm")]⟩ ⟨"svm", .null⟩
    rfl rfl rfl rfl rfl

/-- Claim C1: the executor performs at most one retry per invocation — the
upstream call count never exceeds two; after a payable 402 (supported scheme,
proof produced), a second 402 classification or a transport failure on the
replay is surfaced as the terminal outcome; and the result depends only on
the first two attempts, so no third call is ever consulted (executor modelled
from the spec, its implementation living in the external payment library). -/
theorem C1_at_most_one_retry :
    (∀ (registry : List SchemeCapability)
       (extract : JsValue → Option PaymentChallenge)
       (upstream : Nat → Option PaymentProof → UpstreamOutcome),
      (executeWithPayment registry extract upstream).2 ≤ 2) ∧
    (∀ (registry : List SchemeCapability)
       (extract : JsValue → Option PaymentChallenge)
       (upstream : Nat → Option PaymentProof → UpstreamOutcome)
       (r : HttpResponse) (ch : PaymentChallenge) (cap : SchemeCapability)
       (proof : PaymentProof),
      upstream 0 none = .response r →
      r.status = some 402 →
      extract r.data = some ch →
      registry.find? (fun c => c.family == ch.scheme) = some cap →
      cap.sign ch = .ok proof →
      (∀ r2, upstream 1 (some proof) = .response r2 → r2.status = some 402 →
        executeWithPayment registry extract upstream =
          (.error (.httpError r2 "Request failed with status code 402"), 2)) ∧
      (∀ m, upstream 1 (some proof) = .netError m →
        executeWithPayment registry extract upstream = (.error (.transport m), 2))) ∧
    (∀ (registry : List SchemeCapability)
       (extract : JsValue → Option PaymentChallenge)
       (upstream upstream2 : Nat → Option PaymentProof → UpstreamOutcome),
      upstream 0 = upstream2 0 → upstream 1 = upstream2 1 →
      executeWithPayment registry extract upstream =
        executeWithPayment registry extract upstream2) := by
  refine ⟨?_, ?_, ?_⟩
  · intro registry extract upstream
    unfold executeWithPayment
    repeat' split
    all_goals simp
  · intro registry extract upstream r ch cap proof h0 h402 hex hfind hsign
    constructor
    · intro r2 hu1 h402b
      unfold executeWithPayment
      rw [h0]
      simp [h402, hex, hfind, hsign, hu1, h402b]
    · intro m hu1
      unfold executeWithPayment
      rw [h0]
      simp [h402, hex, hfind, hsign, hu1]
  · intro registry extract upstream upstream2 h0 h1
    unfold executeWithPayment
    rw [h0, h1]

/-- Witness for C1: a registered EVM challenge whose replay times out ends
terminally after exactly two calls with the transport message surfaced. -/
theorem C1_at_most_one_retry_witness :
    executeWithPayment [⟨"evm", fun _ => .ok ⟨"sig"⟩⟩] (fun _ => some ⟨"evm", .null⟩)
      (fun n _ => if n = 0 then .response ⟨some 402, .null, .obj [("scheme", .str "evm")]⟩
                  else .netError "timeout of 15000ms exceeded") =
      (.error (.transport "timeout of 15000ms exceeded"), 2) :=
  ((C1_at_most_one_retry.2.1 [⟨"evm", fun _ => .ok ⟨"sig"⟩⟩] (fun _ => some ⟨"evm", .null⟩)
      (fun n _ => if n = 0 then .response ⟨some 402, .null, .obj [("scheme", .str "evm")]⟩
                  else .netError "timeout of 15000ms exceeded")
      ⟨some 402, .null, .obj [("scheme", .str "evm")]⟩ ⟨"evm", .null⟩
      ⟨"evm", fun _ => .ok ⟨"sig"⟩⟩ ⟨"sig"⟩
      rfl rfl rfl rfl rfl).2
    "timeout of 15000ms exceeded" rfl)
